import Mathlib

/-!
Verification of the we-invite order workflow: a shallow embedding of the
order-creation path (multi-image upload with compensating cleanup), the
payment-notification handler, payment-transaction creation, and the order
CRUD handlers, together with proofs of the specified properties.

External collaborators (object store, payment gateway, database failure
modes) are modelled as explicit oracles passed to each operation; the
database is explicit state threaded through every handler.
-/

namespace WeInvite

/-- A user row: id is the external auth subject; name is nullable. -/
structure User where
  id : String
  name : Option String
  role : String
deriving Repr, DecidableEq

/-- A product row (price modelled as a natural number; it is only carried
through to the gateway, never computed with). -/
structure Product where
  id : String
  name : String
  price : Nat
deriving Repr, DecidableEq

/-- An order row, as persisted by the controllers. -/
structure Order where
  id : String
  userId : String
  productId : String
  status : String
  weddingInfo : String
  snapToken : Option String
  imageUrls : List String
deriving Repr, DecidableEq

/-- The relational store: lists of rows; Order.id is unique by constraint. -/
structure DB where
  users : List User
  products : List Product
  orders : List Order
deriving Repr, DecidableEq

/-- The object store: the set of file paths currently present, as a list. -/
abbrev Store := List String

def findUser (db : DB) (uid : String) : Option User :=
  db.users.find? (fun u => u.id == uid)

def findProduct (db : DB) (pid : String) : Option Product :=
  db.products.find? (fun p => p.id == pid)

def findOrder (db : DB) (oid : String) : Option Order :=
  db.orders.find? (fun o => o.id == oid)

/-- JavaScript truthiness of an optional request string: `undefined` and the
empty string are falsy (`if (!orderId) ...`). -/
def truthy : Option String → Bool
  | none => false
  | some s => s ≠ ""

/-- JS `weddingInfo || \x7b\x7d`: absent or empty payload defaults to the empty
JSON object. -/
def orEmptyJson : Option String → String
  | none => "\x7b\x7d"
  | some s => if s = "" then "\x7b\x7d" else s

/-- JS `snapToken || null`: absent or empty token is stored as null. -/
def orNull : Option String → Option String
  | none => none
  | some s => if s = "" then none else some s

/-- One multipart file attachment (only the original name is observable in
the storage-key derivation; the binary content is opaque). -/
structure FileUpload where
  originalname : String
deriving Repr, DecidableEq

/-- The characters of the current segment after the last dot seen so far
(accumulated in reverse), structurally recursive so that it evaluates. -/
def fileExtAux : List Char → List Char → List Char
  | [], seg => seg.reverse
  | c :: rest, seg => if c = '.' then fileExtAux rest [] else fileExtAux rest (c :: seg)

/-- JS `originalname.split(".").pop()`: the last dot-separated segment of the
original file name, used as the extension in the storage key. -/
def fileExt (name : String) : String :=
  String.mk (fileExtAux name.toList [])

/-- The storage key of the i-th image of an order (0-based loop index `i`):
`order-images/ORDERID-(i+1)-UUID.EXT`. -/
def orderFilePath (orderId : String) (i : Nat) (uuid ext : String) : String :=
  "order-images/" ++ orderId ++ "-" ++ toString (i + 1) ++ "-" ++ uuid ++ "." ++ ext

/-- Oracle for the Supabase storage client: whether the i-th upload of the
attempt succeeds, the public URL of a stored path, and the random (uuid)
component drawn for the i-th key. -/
structure Supa where
  uploadOk : Nat → Bool
  publicUrl : String → String
  uuid : Nat → String

/-- JS `supabase.storage.remove(paths)`: delete the listed paths. -/
def removePaths (store : Store) (ps : List String) : Store :=
  List.filter (fun x => !(ps.contains x)) store

/-- The upload loop of `createOrder`: upload each file under its derived key,
accumulating public URLs and file paths; on the first failure, delete every
previously uploaded path of the attempt and report the failing index together
with the paths that had been uploaded. -/
def uploadImages (supa : Supa) (orderId : String) :
    List FileUpload → Nat → List String → List String → Store →
    Except (Nat × List String × Store) (List String × List String × Store)
  | [], _, urls, paths, store => .ok (urls, paths, store)
  | f :: rest, i, urls, paths, store =>
    let fp := orderFilePath orderId i (supa.uuid i) (fileExt f.originalname)
    if supa.uploadOk i then
      uploadImages supa orderId rest (i + 1)
        (urls ++ [supa.publicUrl fp]) (paths ++ [fp]) (fp :: store)
    else
      .error (i, paths, if paths.length > 0 then removePaths store paths else store)

/-- The failure responses of `createOrder`; upload/db failures record the
file paths the attempt had uploaded (the controller's `uploadedFilePaths`). -/
inductive CreateErr where
  | invalid (msg : String)
  | notFound (msg : String)
  | uploadFailed (failedIdx : Nat) (uploadedFilePaths : List String)
  | dbFailed (uploadedFilePaths : List String)
deriving Repr, DecidableEq

/-- The HTTP status the controller sends for each failure. -/
def CreateErr.httpStatus : CreateErr → Nat
  | .invalid _ => 400
  | .notFound _ => 404
  | .uploadFailed _ _ => 500
  | .dbFailed _ => 500

/-- The multipart request body of POST /orders. -/
structure CreateReq where
  orderId : Option String
  userId : Option String
  productId : Option String
  weddingInfo : Option String
  snapToken : Option String
  files : List FileUpload
deriving Repr, DecidableEq

/-- Handler `createOrder` (order controller): validate, check the referenced user and
product, upload all images, persist the order; on an upload or persistence
failure delete the attempt's uploads before returning the error. `dbOk`
models database connectivity; the insert also fails on a duplicate order id
(unique-key constraint). -/
def createOrder (supa : Supa) (dbOk : Bool) (req : CreateReq) (db : DB)
    (store : Store) : Except CreateErr Order × DB × Store :=
  if !(truthy req.orderId && truthy req.userId && truthy req.productId) then
    (.error (.invalid "Missing required fields: orderId, userId, productId"), db, store)
  else if req.files.isEmpty then
    (.error (.invalid "At least one image file is required"), db, store)
  else
    let orderId := req.orderId.getD ""
    let userId := req.userId.getD ""
    let productId := req.productId.getD ""
    match findUser db userId with
    | none => (.error (.notFound "User not found"), db, store)
    | some _ =>
      match findProduct db productId with
      | none => (.error (.notFound "Product not found"), db, store)
      | some _ =>
        match uploadImages supa orderId req.files 0 [] [] store with
        | .error (k, ps, store') => (.error (.uploadFailed k ps), db, store')
        | .ok (urls, ps, store') =>
          if dbOk && (findOrder db orderId).isNone then
            let o : Order :=
              { id := orderId, userId := userId, productId := productId
                status := "pending"
                weddingInfo := orEmptyJson req.weddingInfo
                snapToken := orNull req.snapToken
                imageUrls := urls }
            (.ok o, { db with orders := db.orders ++ [o] }, store')
          else
            (.error (.dbFailed ps), db, removePaths store' ps)

/-- Decidable equality of handler results, for concrete evaluation. -/
instance {e a : Type} [DecidableEq e] [DecidableEq a] : DecidableEq (Except e a)
  | .error x, .error y =>
    if h : x = y then .isTrue (by rw [h]) else .isFalse (by intro hc; cases hc; exact h rfl)
  | .error x, .ok y => .isFalse (by intro hc; cases hc)
  | .ok x, .error y => .isFalse (by intro hc; cases hc)
  | .ok x, .ok y =>
    if h : x = y then .isTrue (by rw [h]) else .isFalse (by intro hc; cases hc; exact h rfl)

/-- A generic failure response: HTTP status plus error message. -/
structure HttpError where
  status : Nat
  msg : String
deriving Repr, DecidableEq

/-- Update the unique row whose id matches, applying `f`; `none` when no row
matches (Prisma `update` throws P2025 in that case). Returns the new list and
the updated row. -/
def updateRow (f : Order → Order) : List Order → String → Option (List Order × Order)
  | [], _ => none
  | o :: rest, oid =>
    if o.id == oid then some (f o :: rest, f o)
    else
      match updateRow f rest oid with
      | none => none
      | some (rest', u) => some (o :: rest', u)

/-- The verified (signature-checked, normalized) notification payload the
Midtrans client returns. -/
structure NotifPayload where
  order_id : String
  transaction_status : String
  fraud_status : String
deriving Repr, DecidableEq

/-- The status written to the order for a given gateway transaction status and
fraud status: the if-chain of `handleNotification`, starting from the default
`pending`. -/
def mapOrderStatus (transactionStatus fraudStatus : String) : String :=
  if transactionStatus = "capture" then
    if fraudStatus = "accept" then "diterima" else "pending"
  else if transactionStatus = "settlement" then "diterima"
  else if transactionStatus = "cancel" ∨ transactionStatus = "deny" ∨
      transactionStatus = "expire" then "dibatalkan"
  else if transactionStatus = "pending" then "pending"
  else "pending"

/-- Handler `handleNotification` (Midtrans controller): the argument is the result of
`snap.transaction.notification` (`none` when the client rejects/throws on the
raw payload). Any thrown error — verification failure or the Prisma P2025
record-not-found on update — reaches the same catch block, which answers 500
"Failed to handle notification". On success the matched order's status is set
to the mapped status and the updated order is returned. -/
def handleNotification (verified : Option NotifPayload) (db : DB) :
    Except HttpError Order × DB :=
  match verified with
  | none => (.error ⟨500, "Failed to handle notification"⟩, db)
  | some p =>
    let st := mapOrderStatus p.transaction_status p.fraud_status
    match updateRow (fun o => { o with status := st }) db.orders p.order_id with
    | none => (.error ⟨500, "Failed to handle notification"⟩, db)
    | some (orders', o) => (.ok o, { db with orders := orders' })

/-- Modelled from the spec: the transition table of §4.5, as a pure function
of (gateway transaction status, fraud status) — capture/accept ↦ diterima,
capture/other ↦ pending, settlement ↦ diterima, cancel, deny or expire ↦
dibatalkan, pending ↦ pending, anything else ↦ pending by default. -/
def specStatusTable (transactionStatus fraudStatus : String) : String :=
  if transactionStatus = "capture" then
    (if fraudStatus = "accept" then "diterima" else "pending")
  else if transactionStatus = "settlement" then "diterima"
  else if transactionStatus = "cancel" then "dibatalkan"
  else if transactionStatus = "deny" then "dibatalkan"
  else if transactionStatus = "expire" then "dibatalkan"
  else if transactionStatus = "pending" then "pending"
  else "pending"

/-- One Midtrans item-details line. -/
structure Item where
  id : String
  price : Nat
  quantity : Nat
  name : String
deriving Repr, DecidableEq

/-- The parameters `createTransaction` sends to `snap.createTransaction`. -/
structure SnapParams where
  order_id : String
  gross_amount : Nat
  first_name : String
  item_details : List Item
deriving Repr, DecidableEq

/-- The gateway's hosted-payment session descriptor (opaque). -/
structure SnapSession where
  token : String
  redirect_url : String
deriving Repr, DecidableEq

/-- JS `user.name || "Guest"`: the customer display name, defaulting to the
generic placeholder when the stored name is null or empty. -/
def orGuest : Option String → String
  | none => "Guest"
  | some n => if n = "" then "Guest" else n

/-- The Midtrans parameters built for an order id, product and user: the
transaction reference is the order id, the gross amount is the product price,
and there is a single line item for that product. -/
def txParams (orderId : String) (product : Product) (user : User) : SnapParams :=
  { order_id := orderId
    gross_amount := product.price
    first_name := orGuest user.name
    item_details := [{ id := product.id, price := product.price, quantity := 1,
                       name := product.name }] }

/-- The JSON body of POST /api/midtrans/create-transaction. -/
structure TxReq where
  orderId : Option String
  productId : Option String
  userId : Option String
  weddingInfo : Option String
deriving Repr, DecidableEq

/-- Handler `createTransaction` (Midtrans controller): validate, load product and
user, request a hosted session from the gateway (`gateway` oracle, `none`
models a thrown gateway error), then persist a new pending order and return
both. A gateway or persistence failure surfaces as a single 500. -/
def createTransaction (gateway : SnapParams → Option SnapSession) (dbOk : Bool)
    (req : TxReq) (db : DB) : Except HttpError (SnapSession × Order) × DB :=
  if !(truthy req.orderId && truthy req.productId && truthy req.userId) then
    (.error ⟨400, "Missing required fields: orderId, productId, userId"⟩, db)
  else
    let orderId := req.orderId.getD ""
    let productId := req.productId.getD ""
    let userId := req.userId.getD ""
    match findProduct db productId with
    | none => (.error ⟨404, "Product not found"⟩, db)
    | some product =>
      match findUser db userId with
      | none => (.error ⟨404, "User not found"⟩, db)
      | some user =>
        match gateway (txParams orderId product user) with
        | none => (.error ⟨500, "Failed to create transaction"⟩, db)
        | some session =>
          if dbOk && (findOrder db orderId).isNone then
            let o : Order :=
              { id := orderId, userId := userId, productId := productId
                status := "pending"
                weddingInfo := orEmptyJson req.weddingInfo
                snapToken := none
                imageUrls := [] }
            (.ok (session, o), { db with orders := db.orders ++ [o] })
          else
            (.error ⟨500, "Failed to create transaction"⟩, db)

/-- Whether an order passes the optional userId/status query filters of
GET /orders (a filter is applied only when the query value is truthy). -/
def matchesFilter (userId status : Option String) (o : Order) : Bool :=
  (if truthy userId then o.userId == userId.getD "" else true) &&
  (if truthy status then o.status == status.getD "" else true)

/-- The ordering GET /orders requests from the database: ascending on the
literal textual encoding of the status field. -/
def statusLe (a b : Order) : Prop := a.status ≤ b.status

instance : DecidableRel statusLe :=
  fun a b => inferInstanceAs (Decidable (a.status ≤ b.status))

instance : IsTotal Order statusLe :=
  ⟨fun a b => le_total a.status b.status⟩

instance : IsTrans Order statusLe :=
  ⟨fun _ _ _ h1 h2 => le_trans h1 h2⟩

/-- Handler `getAllOrders`: the rows passing the optional filters, sorted ascending
by the status field's text. -/
def getAllOrders (userId status : Option String) (db : DB) : List Order :=
  List.insertionSort statusLe (db.orders.filter (matchesFilter userId status))

/-- The JSON body of PUT /orders/:id — each field independently optional;
for `snapToken`, `some none` models an explicit null in the body. -/
structure UpdateReq where
  status : Option String
  weddingInfo : Option String
  snapToken : Option (Option String)
deriving Repr, DecidableEq

/-- The `updateData` object: each of status, weddingInfo, snapToken is
written only when present (`!== undefined`) in the body. -/
def applyUpdate (req : UpdateReq) (o : Order) : Order :=
  let o1 := match req.status with
    | some s => { o with status := s }
    | none => o
  let o2 := match req.weddingInfo with
    | some w => { o1 with weddingInfo := w }
    | none => o1
  match req.snapToken with
  | some t => { o2 with snapToken := t }
  | none => o2

/-- Handler `updateOrder` (order controller): 404 when the order is absent, else
update exactly the supplied fields of that row and return the updated row. -/
def updateOrder (req : UpdateReq) (oid : String) (db : DB) :
    Except HttpError Order × DB :=
  match updateRow (applyUpdate req) db.orders oid with
  | none => (.error ⟨404, "Order not found"⟩, db)
  | some (orders', o) => (.ok o, { db with orders := orders' })

/-- The public URLs the upload loop produces when every upload succeeds,
starting from loop index `i`: the i-th file's URL comes from the storage key
derived from the order id, the index, and the drawn random component. -/
def expectedUrls (supa : Supa) (oid : String) : Nat → List FileUpload → List String
  | _, [] => []
  | i, f :: rest =>
    supa.publicUrl (orderFilePath oid i (supa.uuid i) (fileExt f.originalname)) ::
      expectedUrls supa oid (i + 1) rest

/-- The order row the creation path persists on success: status pending, the
defaulted payload and token, and the public URLs of the uploaded assets in
the order the images were supplied. -/
def createdOrder (supa : Supa) (req : CreateReq) : Order :=
  { id := req.orderId.getD "", userId := req.userId.getD "",
    productId := req.productId.getD "", status := "pending",
    weddingInfo := orEmptyJson req.weddingInfo,
    snapToken := orNull req.snapToken,
    imageUrls := expectedUrls supa (req.orderId.getD "") 0 req.files }

/-! ### Concrete fixtures used by witnesses and counterexamples -/

/-- A concrete user. -/
def userAlice : User := { id := "u1", name := some "Alice", role := "customer" }

/-- A concrete product. -/
def productInvite : Product := { id := "p1", name := "Invite", price := 100 }

/-- A database with one user and one product and no orders. -/
def dbUserProd : DB := { users := [userAlice], products := [productInvite], orders := [] }

/-- A database with one user, no products, no orders. -/
def dbUserOnly : DB := { users := [userAlice], products := [], orders := [] }

/-- A storage oracle on which every upload succeeds. -/
def supaAllOk : Supa :=
  { uploadOk := fun _ => true, publicUrl := fun p => "https://cdn/" ++ p,
    uuid := fun _ => "u" }

/-- A storage oracle on which only the first upload succeeds. -/
def supaFail2 : Supa :=
  { uploadOk := fun i => i == 0, publicUrl := fun p => "https://cdn/" ++ p,
    uuid := fun _ => "u" }

/-- A concrete creation request with one attached image. -/
def reqCreate1 : CreateReq :=
  { orderId := some "ord-1", userId := some "u1", productId := some "p1",
    weddingInfo := none, snapToken := none, files := [{ originalname := "a.png" }] }

/-- The same creation request pointed at a missing product. -/
def reqCreateMissingProduct : CreateReq :=
  { reqCreate1 with productId := some "p-missing" }

/-- A concrete creation request with two attached images. -/
def reqCreate2 : CreateReq :=
  { reqCreate1 with files := [{ originalname := "a.png" }, { originalname := "b.png" }] }

/-- A payment gateway stub that always returns a session. -/
def gatewayStub : SnapParams → Option SnapSession :=
  fun _ => some { token := "tok", redirect_url := "https://pay/redirect" }

/-- A concrete payment-transaction request. -/
def reqTx1 : TxReq :=
  { orderId := some "ord-1", productId := some "p1", userId := some "u1",
    weddingInfo := none }

/-- A concrete pending order. -/
def orderPending1 : Order :=
  { id := "ord-1", userId := "u1", productId := "p1", status := "pending",
    weddingInfo := "\x7b\x7d", snapToken := none, imageUrls := [] }

/-- The same order after acceptance. -/
def orderDiterima1 : Order :=
  { orderPending1 with status := "diterima" }

/-- A database holding only the pending order. -/
def dbPending1 : DB := { users := [], products := [], orders := [orderPending1] }

/-- A database holding only the accepted order. -/
def dbDiterima1 : DB := { users := [], products := [], orders := [orderDiterima1] }

/-- An empty database. -/
def dbEmpty : DB := { users := [], products := [], orders := [] }

/-- A concrete verified settlement notification for order ord-1. -/
def notifSettlement1 : NotifPayload :=
  { order_id := "ord-1", transaction_status := "settlement", fraud_status := "" }

/-- A concrete verified expire notification for an order id no row matches. -/
def notifExpireMissing : NotifPayload :=
  { order_id := "missing-order", transaction_status := "expire", fraud_status := "" }

/-- A concrete update body carrying a status string outside the enum. -/
def reqStatusBogus : UpdateReq :=
  { status := some "not-a-status", weddingInfo := none, snapToken := none }

/-- A concrete update body carrying none of the three optional fields. -/
def reqNoop : UpdateReq :=
  { status := none, weddingInfo := none, snapToken := none }

/-! ### Helper lemmas about the upload loop -/

/-- Membership in the object store after a remove call. -/
theorem mem_removePaths (store : Store) (ps : List String) (x : String) :
    x ∈ removePaths store ps ↔ x ∈ store ∧ x ∉ ps := by
  simp [removePaths, List.mem_filter]

/-- When the upload loop fails, none of the attempt's uploaded paths remain,
every accumulated path is among the reported ones, and the resulting store
holds only paths that were already present when the loop started. -/
theorem uploadImages_error_spec (supa : Supa) (oid : String) :
    ∀ (files : List FileUpload) (i : Nat) (urls paths : List String) (store : Store)
      (k : Nat) (ps : List String) (store' : Store),
    uploadImages supa oid files i urls paths store = .error (k, ps, store') →
    (∀ p ∈ ps, p ∉ store') ∧ (∀ x ∈ paths, x ∈ ps) ∧ (∀ p ∈ store', p ∈ store) := by
  intro files
  induction files with
  | nil =>
    intro i urls paths store k ps store' h
    simp [uploadImages] at h
  | cons f rest ih =>
    intro i urls paths store k ps store' h
    rw [uploadImages] at h
    by_cases hup : supa.uploadOk i
    · simp only [hup, if_true] at h
      obtain ⟨h1, h2, h3⟩ := ih (i + 1) _ _ _ k ps store' h
      refine ⟨h1, ?_, ?_⟩
      · intro x hx
        exact h2 x (List.mem_append_left _ hx)
      · intro p hp
        rcases List.mem_cons.mp (h3 p hp) with heq | hmem
        · exact absurd hp (h1 p (h2 p (by simp [heq])))
        · exact hmem
    · simp only [hup, if_false, Except.error.injEq, Prod.mk.injEq] at h
      obtain ⟨rfl, rfl, rfl⟩ := h
      by_cases hlen : paths.length > 0
      · rw [if_pos hlen]
        exact ⟨fun p hp hmem => ((mem_removePaths _ _ _).mp hmem).2 hp,
               fun x hx => hx,
               fun p hp => ((mem_removePaths _ _ _).mp hp).1⟩
      · rw [if_neg hlen]
        have hnil : paths = [] := List.length_eq_zero.mp (Nat.eq_zero_of_not_pos hlen)
        subst hnil
        exact ⟨fun p hp => absurd hp (List.not_mem_nil p), fun x hx => hx, fun p hp => hp⟩

/-- When the upload loop succeeds, every accumulated path is among the
returned ones, and the resulting store only adds returned paths to the
initial store. -/
theorem uploadImages_ok_members (supa : Supa) (oid : String) :
    ∀ (files : List FileUpload) (i : Nat) (urls paths : List String) (store : Store)
      (urls' ps : List String) (store' : Store),
    uploadImages supa oid files i urls paths store = .ok (urls', ps, store') →
    (∀ x ∈ paths, x ∈ ps) ∧ (∀ p ∈ store', p ∈ ps ∨ p ∈ store) := by
  intro files
  induction files with
  | nil =>
    intro i urls paths store urls' ps store' h
    simp only [uploadImages, Except.ok.injEq, Prod.mk.injEq] at h
    obtain ⟨-, rfl, rfl⟩ := h
    exact ⟨fun x hx => hx, fun p hp => Or.inr hp⟩
  | cons f rest ih =>
    intro i urls paths store urls' ps store' h
    rw [uploadImages] at h
    by_cases hup : supa.uploadOk i
    · simp only [hup, if_true] at h
      obtain ⟨h1, h2⟩ := ih (i + 1) _ _ _ urls' ps store' h
      refine ⟨fun x hx => h1 x (List.mem_append_left _ hx), ?_⟩
      intro p hp
      rcases h2 p hp with hps | hmem
      · exact Or.inl hps
      · rcases List.mem_cons.mp hmem with heq | hmem'
        · exact Or.inl (h1 p (by simp [heq]))
        · exact Or.inr hmem'
    · simp [hup] at h

theorem expectedUrls_length (supa : Supa) (oid : String) :
    ∀ (files : List FileUpload) (i : Nat),
    (expectedUrls supa oid i files).length = files.length := by
  intro files
  induction files with
  | nil => intro i; rfl
  | cons f rest ih => intro i; simp [expectedUrls, ih]

theorem expectedUrls_get? (supa : Supa) (oid : String) :
    ∀ (files : List FileUpload) (i k : Nat) (f : FileUpload),
    files.get? k = some f →
    (expectedUrls supa oid i files).get? k =
      some (supa.publicUrl
        (orderFilePath oid (i + k) (supa.uuid (i + k)) (fileExt f.originalname))) := by
  intro files
  induction files with
  | nil => intro i k f h; simp at h
  | cons g rest ih =>
    intro i k f h
    cases k with
    | zero =>
      simp only [List.get?] at h
      cases h
      simp [expectedUrls]
    | succ k' =>
      simp only [List.get?] at h
      have hrec := ih (i + 1) k' f h
      have hexp : expectedUrls supa oid i (g :: rest) =
          supa.publicUrl (orderFilePath oid i (supa.uuid i) (fileExt g.originalname)) ::
            expectedUrls supa oid (i + 1) rest := rfl
      rw [hexp]
      simp only [List.get?]
      rw [hrec]
      have hidx : i + 1 + k' = i + (k' + 1) := by omega
      rw [hidx]

/-- When every upload from index `i` on succeeds, the loop returns the
accumulated URLs extended with the expected URLs of the remaining files. -/
theorem uploadImages_ok_of_allOk (supa : Supa) (oid : String) :
    ∀ (files : List FileUpload) (i : Nat) (urls paths : List String) (store : Store),
    (∀ j, j < files.length → supa.uploadOk (i + j) = true) →
    ∃ ps store',
      uploadImages supa oid files i urls paths store =
        .ok (urls ++ expectedUrls supa oid i files, ps, store') := by
  intro files
  induction files with
  | nil =>
    intro i urls paths store _
    exact ⟨paths, store, by simp [uploadImages, expectedUrls]⟩
  | cons f rest ih =>
    intro i urls paths store hok
    have h0 : supa.uploadOk i = true := by
      have := hok 0 (Nat.succ_pos _)
      simpa using this
    have hrest : ∀ j, j < rest.length → supa.uploadOk (i + 1 + j) = true := by
      intro j hj
      have := hok (j + 1) (by simpa using Nat.succ_lt_succ hj)
      simpa [Nat.add_assoc, Nat.add_comm 1 j] using this
    obtain ⟨ps, store', heq⟩ := ih (i + 1)
      (urls ++ [supa.publicUrl (orderFilePath oid i (supa.uuid i) (fileExt f.originalname))])
      (paths ++ [orderFilePath oid i (supa.uuid i) (fileExt f.originalname)])
      ((orderFilePath oid i (supa.uuid i) (fileExt f.originalname)) :: store) hrest
    refine ⟨ps, store', ?_⟩
    rw [uploadImages]
    simp only [h0, if_true]
    rw [heq]
    have hexp : expectedUrls supa oid i (f :: rest) =
        supa.publicUrl (orderFilePath oid i (supa.uuid i) (fileExt f.originalname)) ::
          expectedUrls supa oid (i + 1) rest := rfl
    rw [hexp, List.append_assoc]
    rfl

/-! ### Helper lemmas about row update -/

theorem updateRow_eq_none_iff (f : Order → Order) :
    ∀ (l : List Order) (oid : String),
    updateRow f l oid = none ↔ l.find? (fun o => o.id == oid) = none := by
  intro l oid
  induction l with
  | nil => simp [updateRow]
  | cons o rest ih =>
    rw [updateRow, List.find?]
    by_cases h : o.id == oid
    · simp [h]
    · simp only [Bool.not_eq_true] at h
      simp only [h, if_false, Bool.false_eq_true]
      rw [← ih]
      cases updateRow f rest oid with
      | none => simp
      | some p => simp

theorem updateRow_of_find? (f : Order → Order) :
    ∀ (l : List Order) (oid : String) (o : Order),
    l.find? (fun x => x.id == oid) = some o →
    ∃ l', updateRow f l oid = some (l', f o) := by
  intro l
  induction l with
  | nil => intro oid o h; simp at h
  | cons x rest ih =>
    intro oid o h
    rw [List.find?] at h
    by_cases hx : x.id == oid
    · simp only [hx] at h
      cases h
      exact ⟨f x :: rest, by simp [updateRow, hx]⟩
    · simp only [Bool.not_eq_true] at hx
      simp only [hx] at h
      obtain ⟨l', hl'⟩ := ih oid o h
      exact ⟨x :: l', by simp [updateRow, hx, hl']⟩

theorem updateRow_find?_after (f : Order → Order) (hid : ∀ o, (f o).id = o.id) :
    ∀ (l : List Order) (oid : String) (l' : List Order) (u : Order),
    updateRow f l oid = some (l', u) →
    l'.find? (fun x => x.id == oid) = some u := by
  intro l
  induction l with
  | nil => intro oid l' u h; simp [updateRow] at h
  | cons x rest ih =>
    intro oid l' u h
    rw [updateRow] at h
    by_cases hx : x.id == oid
    · simp only [hx, if_true, Option.some.injEq, Prod.mk.injEq] at h
      obtain ⟨rfl, rfl⟩ := h
      have : ((f x).id == oid) = true := by rw [hid x]; exact hx
      simp [List.find?, this]
    · simp only [Bool.not_eq_true] at hx
      simp only [hx, Bool.false_eq_true, if_false] at h
      cases hrec : updateRow f rest oid with
      | none => rw [hrec] at h; simp at h
      | some p =>
        rw [hrec] at h
        obtain ⟨rest', u'⟩ := p
        simp only [Option.some.injEq, Prod.mk.injEq] at h
        obtain ⟨rfl, rfl⟩ := h
        rw [List.find?, hx]
        exact ih oid rest' u' hrec

theorem updateRow_result_shape (f : Order → Order) :
    ∀ (l : List Order) (oid : String) (l' : List Order) (u : Order),
    updateRow f l oid = some (l', u) →
    ∃ o, u = f o ∧ (o.id == oid) = true := by
  intro l
  induction l with
  | nil => intro oid l' u h; simp [updateRow] at h
  | cons x rest ih =>
    intro oid l' u h
    rw [updateRow] at h
    by_cases hx : x.id == oid
    · simp only [hx, if_true, Option.some.injEq, Prod.mk.injEq] at h
      exact ⟨x, h.2.symm, hx⟩
    · simp only [Bool.not_eq_true] at hx
      simp only [hx, Bool.false_eq_true, if_false] at h
      cases hrec : updateRow f rest oid with
      | none => rw [hrec] at h; simp at h
      | some p =>
        rw [hrec] at h
        obtain ⟨rest', u'⟩ := p
        simp only [Option.some.injEq, Prod.mk.injEq] at h
        obtain ⟨rfl, rfl⟩ := h
        exact ih oid rest' u' hrec

theorem updateRow_idem (f : Order → Order) (hid : ∀ o, (f o).id = o.id)
    (hff : ∀ o, f (f o) = f o) :
    ∀ (l : List Order) (oid : String) (l' : List Order) (u : Order),
    updateRow f l oid = some (l', u) →
    updateRow f l' oid = some (l', u) := by
  intro l
  induction l with
  | nil => intro oid l' u h; simp [updateRow] at h
  | cons x rest ih =>
    intro oid l' u h
    rw [updateRow] at h
    by_cases hx : x.id == oid
    · simp only [hx, if_true, Option.some.injEq, Prod.mk.injEq] at h
      obtain ⟨rfl, rfl⟩ := h
      have hfx : ((f x).id == oid) = true := by rw [hid x]; exact hx
      simp [updateRow, hfx, hff x]
    · simp only [Bool.not_eq_true] at hx
      simp only [hx, Bool.false_eq_true, if_false] at h
      cases hrec : updateRow f rest oid with
      | none => rw [hrec] at h; simp at h
      | some p =>
        rw [hrec] at h
        obtain ⟨rest', u'⟩ := p
        simp only [Option.some.injEq, Prod.mk.injEq] at h
        obtain ⟨rfl, rfl⟩ := h
        rw [updateRow]
        simp only [hx, Bool.false_eq_true, if_false]
        rw [ih oid rest' u' hrec]

theorem updateRow_of_id_fun (f : Order → Order) (hf : ∀ o, f o = o) :
    ∀ (l : List Order) (oid : String) (l' : List Order) (u : Order),
    updateRow f l oid = some (l', u) → l' = l := by
  intro l
  induction l with
  | nil => intro oid l' u h; simp [updateRow] at h
  | cons x rest ih =>
    intro oid l' u h
    rw [updateRow] at h
    by_cases hx : x.id == oid
    · simp only [hx, if_true, Option.some.injEq, Prod.mk.injEq] at h
      rw [← h.1, hf x]
    · simp only [Bool.not_eq_true] at hx
      simp only [hx, Bool.false_eq_true, if_false] at h
      cases hrec : updateRow f rest oid with
      | none => rw [hrec] at h; simp at h
      | some p =>
        rw [hrec] at h
        obtain ⟨rest', u'⟩ := p
        simp only [Option.some.injEq, Prod.mk.injEq] at h
        obtain ⟨rfl, rfl⟩ := h
        rw [ih oid rest' u' hrec]

/-! ### Notification handling: transition table, idempotence, failure shape -/

/-- The if-chain of the handler computes exactly the spec's §4.5 table. -/
theorem mapOrderStatus_eq_specTable (ts fs : String) :
    mapOrderStatus ts fs = specStatusTable ts fs := by
  unfold mapOrderStatus specStatusTable
  split_ifs <;> first | rfl | tauto

/-- C2: for every verified notification that the handler processes
successfully, the status written to the matched Order — both on the returned
order and on the row now stored under the transaction reference — is exactly
the value of the §4.5 transition table at (transactionStatus, fraudStatus). -/
theorem handleNotification_matches_table (p : NotifPayload) (db db' : DB) (o : Order)
    (h : handleNotification (some p) db = (.ok o, db')) :
    o.status = specStatusTable p.transaction_status p.fraud_status ∧
    findOrder db' p.order_id = some o := by
  simp only [handleNotification] at h
  cases hrec : updateRow
      (fun o => { o with status := mapOrderStatus p.transaction_status p.fraud_status })
      db.orders p.order_id with
  | none => rw [hrec] at h; simp at h
  | some q =>
    obtain ⟨orders', u⟩ := q
    rw [hrec] at h
    simp only [Prod.mk.injEq, Except.ok.injEq] at h
    obtain ⟨rfl, rfl⟩ := h
    constructor
    · obtain ⟨o0, rfl, -⟩ := updateRow_result_shape _ _ _ _ _ hrec
      exact mapOrderStatus_eq_specTable _ _
    · exact updateRow_find?_after
        (fun o => { o with status := mapOrderStatus p.transaction_status p.fraud_status })
        (fun _ => rfl) _ _ _ _ hrec

/-- A witness for C2: a settlement notification for a concrete pending order
is written as diterima, matching the table. -/
theorem handleNotification_matches_table_witness :
    orderDiterima1.status = specStatusTable "settlement" "" ∧
    findOrder dbDiterima1 "ord-1" = some orderDiterima1 :=
  handleNotification_matches_table notifSettlement1 dbPending1 dbDiterima1
    orderDiterima1 rfl

/-- C3: the handler is idempotent — re-applying the same verified payload to
the state a first successful application produced returns the same order and
leaves the database (hence the Order's status) unchanged. -/
theorem handleNotification_idem (p : NotifPayload) (db db1 : DB) (o : Order)
    (h : handleNotification (some p) db = (.ok o, db1)) :
    handleNotification (some p) db1 = (.ok o, db1) := by
  simp only [handleNotification] at h ⊢
  cases hrec : updateRow
      (fun o => { o with status := mapOrderStatus p.transaction_status p.fraud_status })
      db.orders p.order_id with
  | none => rw [hrec] at h; simp at h
  | some q =>
    obtain ⟨orders', u⟩ := q
    rw [hrec] at h
    simp only [Prod.mk.injEq, Except.ok.injEq] at h
    obtain ⟨rfl, rfl⟩ := h
    have h2 := updateRow_idem
      (fun o => { o with status := mapOrderStatus p.transaction_status p.fraud_status })
      (fun _ => rfl) (fun _ => rfl) _ _ _ _ hrec
    rw [h2]

/-- A witness for C3: re-delivering an identical settlement notification for
a concrete order is a no-op. -/
theorem handleNotification_idem_witness :
    handleNotification (some notifSettlement1) dbDiterima1 =
      (.ok orderDiterima1, dbDiterima1) :=
  handleNotification_idem notifSettlement1 dbPending1 dbDiterima1 orderDiterima1
    rfl

/-- C4 counterexample: a verified expire notification whose transaction
reference matches no Order does NOT produce an HTTP 404 NotFound — the
handler answers the generic 500 failure (the thrown Prisma record-not-found
error reaches the same catch block as every other error). -/
theorem handleNotification_unknown_order_not_404 :
    handleNotification (some notifExpireMissing) dbEmpty =
      (.error { status := 500, msg := "Failed to handle notification" }, dbEmpty) ∧
    ¬ ∃ e : HttpError,
      handleNotification (some notifExpireMissing) dbEmpty = (.error e, dbEmpty) ∧
      e.status = 404 := by
  constructor
  · rfl
  · rintro ⟨e, he, h404⟩
    rw [show handleNotification (some notifExpireMissing) dbEmpty =
        (.error { status := 500, msg := "Failed to handle notification" }, dbEmpty)
      from rfl] at he
    simp only [Prod.mk.injEq, Except.error.injEq] at he
    rw [← he.1] at h404
    simp at h404

/-- C4 as amended: for every verified notification whose reference matches no
Order, and likewise for every payload rejected by signature verification, the
handler fails with the single generic 500 "Failed to handle notification"
response (there is no distinguished 404 NotFound nor VerificationFailed
kind), and the database is unchanged — in particular no Order row is
created. -/
theorem handleNotification_unknown_or_unverified_500 (p : NotifPayload) (db : DB)
    (h : findOrder db p.order_id = none) :
    handleNotification (some p) db =
      (.error { status := 500, msg := "Failed to handle notification" }, db) ∧
    handleNotification none db =
      (.error { status := 500, msg := "Failed to handle notification" }, db) := by
  constructor
  · simp only [handleNotification]
    have hnone : updateRow
        (fun o => { o with status := mapOrderStatus p.transaction_status p.fraud_status })
        db.orders p.order_id = none :=
      (updateRow_eq_none_iff _ _ _).mpr h
    rw [hnone]
  · rfl

/-- A witness for the amended C4: a concrete unknown-order notification gets
the generic 500 on a one-order database, which it leaves unchanged. -/
theorem handleNotification_unknown_or_unverified_500_witness :
    handleNotification (some notifExpireMissing) dbPending1 =
      (.error { status := 500, msg := "Failed to handle notification" }, dbPending1) ∧
    handleNotification none dbPending1 =
      (.error { status := 500, msg := "Failed to handle notification" }, dbPending1) :=
  handleNotification_unknown_or_unverified_500 notifExpireMissing dbPending1
    (by decide)

/-! ### Order update: no status validation, frame property -/

/-- Field behaviour of the `updateData` application: identity, foreign keys
and image URLs are never touched, and each optional field is only written
when present in the body. -/
theorem applyUpdate_fields (req : UpdateReq) (o : Order) :
    (applyUpdate req o).id = o.id ∧ (applyUpdate req o).userId = o.userId ∧
    (applyUpdate req o).productId = o.productId ∧
    (applyUpdate req o).imageUrls = o.imageUrls ∧
    (req.status = none → (applyUpdate req o).status = o.status) ∧
    (req.weddingInfo = none → (applyUpdate req o).weddingInfo = o.weddingInfo) ∧
    (req.snapToken = none → (applyUpdate req o).snapToken = o.snapToken) := by
  rcases req with ⟨st, wi, tk⟩
  cases st <;> cases wi <;> cases tk <;> simp [applyUpdate]

/-- C9: the update handler validates nothing about the status value — for
every existing order and every string `s` supplied as status, the update
succeeds and the stored status becomes exactly `s`, enum or not, backward
transition or not. -/
theorem updateOrder_accepts_any_status (s oid : String) (db : DB) (o : Order)
    (h : findOrder db oid = some o) :
    ∃ db', updateOrder { status := some s, weddingInfo := none, snapToken := none }
        oid db = (.ok { o with status := s }, db') ∧
      findOrder db' oid = some { o with status := s } := by
  obtain ⟨l', hl'⟩ := updateRow_of_find?
    (applyUpdate { status := some s, weddingInfo := none, snapToken := none })
    db.orders oid o h
  refine ⟨{ db with orders := l' }, ?_, ?_⟩
  · simp only [updateOrder, hl']
    rfl
  · have hfind := updateRow_find?_after
      (applyUpdate { status := some s, weddingInfo := none, snapToken := none })
      (fun _ => rfl) db.orders oid l' _ hl'
    exact hfind

/-- A witness for C9: a string outside the status enum is stored verbatim on
a concrete accepted order (also a backward move away from diterima). -/
theorem updateOrder_accepts_any_status_witness :
    ∃ db', updateOrder reqStatusBogus "ord-1" dbDiterima1 =
        (.ok { orderDiterima1 with status := "not-a-status" }, db') ∧
      findOrder db' "ord-1" = some { orderDiterima1 with status := "not-a-status" } :=
  updateOrder_accepts_any_status "not-a-status" "ord-1" dbDiterima1 orderDiterima1 rfl

/-- C10: the frame property of the update handler — for every existing order
it returns 200 with the updated row; id, userId, productId and imageUrls are
never changed; status, weddingInfo and snapToken change only when present in
the body; and a body with none of the three leaves the order and the whole
database unchanged. -/
theorem updateOrder_frame (req : UpdateReq) (oid : String) (db : DB) (o : Order)
    (h : findOrder db oid = some o) :
    ∃ o' db', updateOrder req oid db = (.ok o', db') ∧
      o'.id = o.id ∧ o'.userId = o.userId ∧ o'.productId = o.productId ∧
      o'.imageUrls = o.imageUrls ∧
      (req.status = none → o'.status = o.status) ∧
      (req.weddingInfo = none → o'.weddingInfo = o.weddingInfo) ∧
      (req.snapToken = none → o'.snapToken = o.snapToken) ∧
      (req.status = none → req.weddingInfo = none → req.snapToken = none →
        o' = o ∧ db' = db) := by
  obtain ⟨l', hl'⟩ := updateRow_of_find? (applyUpdate req) db.orders oid o h
  obtain ⟨h1, h2, h3, h4, h5, h6, h7⟩ := applyUpdate_fields req o
  refine ⟨applyUpdate req o, { db with orders := l' }, ?_, h1, h2, h3, h4, h5, h6, h7, ?_⟩
  · simp only [updateOrder, hl']
  · intro hs hw ht
    rcases req with ⟨st, wi, tk⟩
    cases hs; cases hw; cases ht
    have hid : applyUpdate { status := none, weddingInfo := none, snapToken := none } o
        = o := rfl
    refine ⟨hid, ?_⟩
    have hll := updateRow_of_id_fun
      (applyUpdate { status := none, weddingInfo := none, snapToken := none })
      (fun _ => rfl) db.orders oid l' _ hl'
    rw [hll]

/-- A witness for C10: an update body with none of the three optional fields
returns the concrete pending order unchanged and leaves the database as it
was. -/
theorem updateOrder_frame_witness :
    ∃ o' db', updateOrder reqNoop "ord-1" dbPending1 = (.ok o', db') ∧
      o'.id = orderPending1.id ∧ o'.userId = orderPending1.userId ∧
      o'.productId = orderPending1.productId ∧
      o'.imageUrls = orderPending1.imageUrls ∧
      o' = orderPending1 ∧ db' = dbPending1 := by
  obtain ⟨o', db', h1, h2, h3, h4, h5, h6, h7, h8, h9⟩ :=
    updateOrder_frame reqNoop "ord-1" dbPending1 orderPending1 rfl
  obtain ⟨hA, hB⟩ := h9 rfl rfl rfl
  exact ⟨o', db', h1, h2, h3, h4, h5, hA, hB⟩

/-! ### Order listing: filter and literal textual ordering -/

/-- C8: for every database state and every combination of optional userId
and status query parameters, the listing returns exactly the orders matching
all supplied filters (as a permutation, and membership-exactly), sorted
ascending by the literal textual encoding of the status field — under which
"dibatalkan" < "diterima" < "pending", not any semantic pending-first
order. -/
theorem getAllOrders_filter_sorted (userId status : Option String) (db : DB) :
    (getAllOrders userId status db).Perm
      (db.orders.filter (matchesFilter userId status)) ∧
    List.Sorted statusLe (getAllOrders userId status db) ∧
    (∀ o, o ∈ getAllOrders userId status db ↔
      o ∈ db.orders ∧ matchesFilter userId status o = true) ∧
    ("dibatalkan" : String) < "diterima" ∧ ("diterima" : String) < "pending" := by
  refine ⟨List.perm_insertionSort statusLe _, List.sorted_insertionSort statusLe _,
    ?_, by rw [String.lt_iff_toList_lt]; decide, by rw [String.lt_iff_toList_lt]; decide⟩
  intro o
  rw [show getAllOrders userId status db =
      List.insertionSort statusLe (db.orders.filter (matchesFilter userId status))
    from rfl]
  rw [(List.perm_insertionSort statusLe _).mem_iff, List.mem_filter]

/-! ### Order creation: fail-fast validation, success postcondition, cleanup -/

/-- C5: creation validation is fail-fast and side-effect free — missing
orderId/userId/productId or zero attached images yield the 400 InvalidRequest
responses, a missing user or product yields the 404 NotFound responses, and
in every one of these cases the database and the object store are returned
unchanged (no upload is attempted, no Order row is written). -/
theorem createOrder_validation_fail_fast (supa : Supa) (dbOk : Bool)
    (req : CreateReq) (db : DB) (store : Store) :
    ((truthy req.orderId && truthy req.userId && truthy req.productId) = false →
      createOrder supa dbOk req db store =
        (.error (.invalid "Missing required fields: orderId, userId, productId"),
          db, store)) ∧
    ((truthy req.orderId && truthy req.userId && truthy req.productId) = true →
      req.files = [] →
      createOrder supa dbOk req db store =
        (.error (.invalid "At least one image file is required"), db, store)) ∧
    ((truthy req.orderId && truthy req.userId && truthy req.productId) = true →
      req.files ≠ [] →
      findUser db (req.userId.getD "") = none →
      createOrder supa dbOk req db store =
        (.error (.notFound "User not found"), db, store)) ∧
    ((truthy req.orderId && truthy req.userId && truthy req.productId) = true →
      req.files ≠ [] →
      ∀ u, findUser db (req.userId.getD "") = some u →
      findProduct db (req.productId.getD "") = none →
      createOrder supa dbOk req db store =
        (.error (.notFound "Product not found"), db, store)) ∧
    (∀ m, (CreateErr.invalid m).httpStatus = 400) ∧
    (∀ m, (CreateErr.notFound m).httpStatus = 404) := by
  refine ⟨?_, ?_, ?_, ?_, fun m => rfl, fun m => rfl⟩
  · intro hv
    simp [createOrder, hv]
  · intro hv hf
    simp [createOrder, hv, hf]
  · intro hv hfne hu
    have hfe : req.files.isEmpty = false := by
      cases hq : req.files.isEmpty
      · rfl
      · exact absurd (List.isEmpty_iff.mp hq) hfne
    simp [createOrder, hv, hfe, hu]
  · intro hv hfne u hu hp
    have hfe : req.files.isEmpty = false := by
      cases hq : req.files.isEmpty
      · rfl
      · exact absurd (List.isEmpty_iff.mp hq) hfne
    simp [createOrder, hv, hfe, hu, hp]

/-- A witness for C5: creating an order against a missing product id on a
concrete database answers 404 "Product not found" and leaves database and
store untouched. -/
theorem createOrder_validation_fail_fast_witness :
    createOrder supaAllOk true reqCreateMissingProduct dbUserOnly [] =
      (.error (.notFound "Product not found"), dbUserOnly, ([] : Store)) :=
  (createOrder_validation_fail_fast supaAllOk true reqCreateMissingProduct
      dbUserOnly []).2.2.2.1 (by decide) (by decide) userAlice (by decide) (by decide)

/-- C6: success postcondition of creation — when every upload succeeds and
the insert goes through, the persisted and returned order has status pending
and its imageUrls are exactly the public URLs of the n uploaded assets, in
the supplied order, the k-th stored under the key derived from the order id,
the index k and the drawn random component. -/
theorem createOrder_success_postcondition (supa : Supa) (req : CreateReq)
    (db : DB) (store : Store) (u : User) (pr : Product)
    (hv : (truthy req.orderId && truthy req.userId && truthy req.productId) = true)
    (hfne : req.files ≠ [])
    (hu : findUser db (req.userId.getD "") = some u)
    (hp : findProduct db (req.productId.getD "") = some pr)
    (hup : ∀ j, j < req.files.length → supa.uploadOk j = true)
    (hdup : findOrder db (req.orderId.getD "") = none) :
    ∃ store',
      createOrder supa true req db store =
        (.ok (createdOrder supa req),
          { db with orders := db.orders ++ [createdOrder supa req] }, store') ∧
      (createdOrder supa req).status = "pending" ∧
      (createdOrder supa req).imageUrls.length = req.files.length ∧
      ∀ k f, req.files.get? k = some f →
        (createdOrder supa req).imageUrls.get? k =
          some (supa.publicUrl (orderFilePath (req.orderId.getD "") k (supa.uuid k)
            (fileExt f.originalname))) := by
  obtain ⟨ps, store', heq⟩ := uploadImages_ok_of_allOk supa (req.orderId.getD "")
    req.files 0 [] [] store (by intro j hj; simpa using hup j hj)
  have hfe : req.files.isEmpty = false := by
    cases hq : req.files.isEmpty
    · rfl
    · exact absurd (List.isEmpty_iff.mp hq) hfne
  refine ⟨store', ?_, rfl, ?_, ?_⟩
  · simp [createOrder, hv, hfe, hu, hp, heq, hdup, createdOrder]
  · simpa [createdOrder] using expectedUrls_length supa (req.orderId.getD "") req.files 0
  · intro k f hk
    simpa [createdOrder] using
      expectedUrls_get? supa (req.orderId.getD "") req.files 0 k f hk

/-- A witness for C6: a concrete one-image creation returns the pending order
whose single image URL is the public URL of the derived key. -/
theorem createOrder_success_postcondition_witness :
    ∃ store',
      createOrder supaAllOk true reqCreate1 dbUserProd [] =
        (.ok (createdOrder supaAllOk reqCreate1),
          { dbUserProd with
              orders := dbUserProd.orders ++ [createdOrder supaAllOk reqCreate1] },
          store') ∧
      (createdOrder supaAllOk reqCreate1).status = "pending" ∧
      (createdOrder supaAllOk reqCreate1).imageUrls.length =
        reqCreate1.files.length ∧
      ∀ k f, reqCreate1.files.get? k = some f →
        (createdOrder supaAllOk reqCreate1).imageUrls.get? k =
          some (supaAllOk.publicUrl (orderFilePath (reqCreate1.orderId.getD "") k
            (supaAllOk.uuid k) (fileExt f.originalname))) :=
  createOrder_success_postcondition supaAllOk reqCreate1 dbUserProd [] userAlice
    productInvite (by decide) (by decide) (by decide) (by decide)
    (fun j hj => rfl) (by decide)

/-! ### Payment transaction creation -/

/-- C7: for every request with existing product and user, the gateway session
is requested with parameters whose transaction reference is the order id,
whose gross amount is the product's price, with a single line item for that
product, and whose customer name defaults to "Guest" when the user's name is
absent; on gateway success an Order with status pending and the supplied
wedding-info payload is persisted and returned together with the session. -/
theorem createTransaction_spec (gateway : SnapParams → Option SnapSession)
    (req : TxReq) (db : DB) (pr : Product) (u : User) (s : SnapSession)
    (hv : (truthy req.orderId && truthy req.productId && truthy req.userId) = true)
    (hp : findProduct db (req.productId.getD "") = some pr)
    (hu : findUser db (req.userId.getD "") = some u)
    (hg : gateway (txParams (req.orderId.getD "") pr u) = some s)
    (hdup : findOrder db (req.orderId.getD "") = none) :
    ∃ o, createTransaction gateway true req db =
        (.ok (s, o), { db with orders := db.orders ++ [o] }) ∧
      o.status = "pending" ∧
      o.weddingInfo = orEmptyJson req.weddingInfo ∧
      o.id = req.orderId.getD "" ∧
      o.userId = req.userId.getD "" ∧
      o.productId = req.productId.getD "" ∧
      (txParams (req.orderId.getD "") pr u).order_id = req.orderId.getD "" ∧
      (txParams (req.orderId.getD "") pr u).gross_amount = pr.price ∧
      (txParams (req.orderId.getD "") pr u).item_details =
        [{ id := pr.id, price := pr.price, quantity := 1, name := pr.name }] ∧
      (u.name = none → (txParams (req.orderId.getD "") pr u).first_name = "Guest") := by
  refine ⟨{ id := req.orderId.getD "", userId := req.userId.getD "",
            productId := req.productId.getD "", status := "pending",
            weddingInfo := orEmptyJson req.weddingInfo, snapToken := none,
            imageUrls := [] },
    ?_, rfl, rfl, rfl, rfl, rfl, rfl, rfl, rfl, ?_⟩
  · simp [createTransaction, hv, hp, hu, hg, hdup]
  · intro hn
    simp [txParams, orGuest, hn]

/-- A witness for C7: a concrete transaction request against the one-product
database, with the always-succeeding gateway stub. -/
theorem createTransaction_spec_witness :
    ∃ o, createTransaction gatewayStub true reqTx1 dbUserProd =
        (.ok ({ token := "tok", redirect_url := "https://pay/redirect" }, o),
          { dbUserProd with orders := dbUserProd.orders ++ [o] }) ∧
      o.status = "pending" ∧
      o.weddingInfo = orEmptyJson reqTx1.weddingInfo ∧
      o.id = reqTx1.orderId.getD "" ∧
      o.userId = reqTx1.userId.getD "" ∧
      o.productId = reqTx1.productId.getD "" ∧
      (txParams (reqTx1.orderId.getD "") productInvite userAlice).order_id =
        reqTx1.orderId.getD "" ∧
      (txParams (reqTx1.orderId.getD "") productInvite userAlice).gross_amount =
        productInvite.price ∧
      (txParams (reqTx1.orderId.getD "") productInvite userAlice).item_details =
        [{ id := productInvite.id, price := productInvite.price, quantity := 1,
           name := productInvite.name }] ∧
      (userAlice.name = none →
        (txParams (reqTx1.orderId.getD "") productInvite userAlice).first_name =
          "Guest") :=
  createTransaction_spec gatewayStub reqTx1 dbUserProd productInvite userAlice
    { token := "tok", redirect_url := "https://pay/redirect" }
    (by decide) (by decide) (by decide) rfl (by decide)

/-- C1: compensating cleanup and atomicity of order creation — whenever a
creation attempt fails after uploads began (the upload of the k-th image
fails, or the database insert fails after all uploads succeeded), the
database is returned unchanged (no Order row from this attempt exists), none
of the attempt's uploaded file paths remains in the object store, and the
resulting store holds only objects that were already present before the
attempt. -/
theorem createOrder_failure_cleanup (supa : Supa) (dbOk : Bool) (req : CreateReq)
    (db : DB) (store : Store) (e : CreateErr) (db' : DB) (store' : Store)
    (k : Nat) (ps : List String)
    (hrun : createOrder supa dbOk req db store = (.error e, db', store'))
    (hcase : e = .uploadFailed k ps ∨ e = .dbFailed ps) :
    db' = db ∧ (∀ p ∈ ps, p ∉ store') ∧ ∀ p ∈ store', p ∈ store := by
  simp only [createOrder] at hrun
  split at hrun
  · simp only [Prod.mk.injEq, Except.error.injEq] at hrun
    obtain ⟨rfl, rfl, rfl⟩ := hrun
    simp at hcase
  · split at hrun
    · simp only [Prod.mk.injEq, Except.error.injEq] at hrun
      obtain ⟨rfl, rfl, rfl⟩ := hrun
      simp at hcase
    · split at hrun
      · simp only [Prod.mk.injEq, Except.error.injEq] at hrun
        obtain ⟨rfl, rfl, rfl⟩ := hrun
        simp at hcase
      · split at hrun
        · simp only [Prod.mk.injEq, Except.error.injEq] at hrun
          obtain ⟨rfl, rfl, rfl⟩ := hrun
          simp at hcase
        · split at hrun
          · next k0 ps0 store1 heq =>
            simp only [Prod.mk.injEq, Except.error.injEq] at hrun
            obtain ⟨rfl, rfl, rfl⟩ := hrun
            obtain ⟨h1, -, h3⟩ :=
              uploadImages_error_spec supa _ req.files 0 [] [] store k0 ps0 store1 heq
            rcases hcase with hc | hc
            · obtain ⟨rfl, rfl⟩ : k0 = k ∧ ps0 = ps := by
                injection hc with a b
                exact ⟨a, b⟩
              exact ⟨rfl, h1, h3⟩
            · simp at hc
          · next urls ps0 store1 heq =>
            split at hrun
            · simp at hrun
            · simp only [Prod.mk.injEq, Except.error.injEq] at hrun
              obtain ⟨rfl, rfl, rfl⟩ := hrun
              obtain ⟨-, hmem⟩ :=
                uploadImages_ok_members supa _ req.files 0 [] [] store urls ps0 store1 heq
              rcases hcase with hc | hc
              · simp at hc
              · obtain rfl : ps0 = ps := by injection hc
                refine ⟨rfl, ?_, ?_⟩
                · intro p hp hptr
                  exact ((mem_removePaths _ _ _).mp hptr).2 hp
                · intro p hp
                  obtain ⟨hp1, hp2⟩ := (mem_removePaths _ _ _).mp hp
                  rcases hmem p hp1 with hin | hin
                  · exact absurd hin hp2
                  · exact hin

/-- A witness for C1: with a concrete two-image request whose second upload
fails, the attempt reports the failure, the database is unchanged and the
first image — already uploaded — has been deleted from the store. -/
theorem createOrder_failure_cleanup_witness :
    dbUserProd = dbUserProd ∧
    (∀ p ∈ ["order-images/ord-1-1-u.png"], p ∉ ([] : Store)) ∧
    ∀ p ∈ ([] : Store), p ∈ ([] : Store) :=
  createOrder_failure_cleanup supaFail2 true reqCreate2 dbUserProd []
    (.uploadFailed 1 ["order-images/ord-1-1-u.png"]) dbUserProd [] 1
    ["order-images/ord-1-1-u.png"] (by decide) (Or.inl rfl)

end WeInvite
